import Mathlib

/-!
Shallow embedding of the sidebar/thread-navigation state model of the
suna-agent frontend, together with the settings-table migration.

Sources embedded:
- frontend/src/components/sidebar/nav-agents.tsx (NavAgents, ThreadItem,
  handleThreadClick)
- frontend/src/components/dashboard/layout-content.tsx (DashboardLayoutContent)
- frontend/src/components/sidebar/sidebar-left.tsx (SidebarLeft route-change
  effect, handleKeyDown)
- backend/supabase/migrations/20250815120000_create_settings_table.sql
  (settings table, set_updated_at_timestamp trigger)
-/

namespace SunaSpec

/-- The fields of a browser mouse event that the click handlers read. -/
structure MouseEvent where
  metaKey : Bool
  ctrlKey : Bool
  deriving DecidableEq

/-- The fields of a browser keyboard event that handleKeyDown reads. -/
structure KeyboardEvent where
  key : String
  metaKey : Bool
  ctrlKey : Bool
  deriving DecidableEq

/-- The modifier test the sidebar keyboard handler uses for the platform
modifier: `event.metaKey || event.ctrlKey` (sidebar-left.tsx, handleKeyDown).
The spec phrases both the keyboard and the click contract in terms of this
"platform modifier". -/
def platformModifierHeld (e : MouseEvent) : Bool :=
  e.metaKey || e.ctrlKey

/-- A conversation thread as consumed by the UI (data model of the spec:
thread_id, name, updated_at, optional iconName). -/
structure Thread where
  thread_id : String
  name : String
  updated_at : Nat
  iconName : Option String
  deriving DecidableEq

/-- The thread query response shape: `{ threads: Thread[] }`. -/
structure ThreadsResponse where
  threads : List Thread
  deriving DecidableEq

/-- The local state held by the NavAgents component: the transient loading
thread id (useState loadingThreadId) and the mobile overlay flag that
setOpenMobile writes. -/
structure NavAgentsState where
  loadingThreadId : Option String
  openMobile : Bool
  deriving DecidableEq

/-- handleThreadClick from nav-agents.tsx:
`if (!e.metaKey) setLoadingThreadId(threadId); if (isMobile) setOpenMobile(false)`. -/
def handleThreadClick (e : MouseEvent) (threadId : String) (isMobile : Bool)
    (s : NavAgentsState) : NavAgentsState :=
  let s1 := if !e.metaKey then { s with loadingThreadId := some threadId } else s
  if isMobile then { s1 with openMobile := false } else s1

/-- A thread id is the currently marked transient loading target. -/
def isMarkedLoading (s : NavAgentsState) (id : String) : Prop :=
  s.loadingThreadId = some id

/-- JavaScript String.prototype.includes, on the character lists of the
strings: true exactly when the needle occurs contiguously in the haystack. -/
def jsIncludes : List Char → List Char → Bool
  | [], needle => needle.isEmpty
  | c :: t, needle => needle.isPrefixOf (c :: t) || jsIncludes t needle

/-- The active-row check of nav-agents.tsx line 122:
`pathname?.includes(thread.thread_id) || false`. -/
def isActiveRow (pathname : Option String) (threadId : String) : Bool :=
  match pathname with
  | some p => jsIncludes p.data threadId.data
  | none => false

/-- What ThreadItem receives and renders for one thread row. -/
structure ThreadRow where
  thread_id : String
  url : String
  isActive : Bool
  isThreadLoading : Bool
  deriving DecidableEq

/-- The per-row data computed inside threads.map in NavAgents: the link url
`/agents/{thread_id}`, the active flag, and the spinner flag. -/
def rowsOf (threads : List Thread) (loadingThreadId : Option String)
    (pathname : Option String) : List ThreadRow :=
  threads.map fun thread =>
    { thread_id := thread.thread_id,
      url := "/agents/" ++ thread.thread_id,
      isActive := isActiveRow pathname thread.thread_id,
      isThreadLoading := loadingThreadId == some thread.thread_id }

/-- The three bodies the thread-list region can draw. -/
inductive NavListView where
  | skeleton (count : Nat)
  | rows (items : List ThreadRow)
  | emptyMessage
  deriving DecidableEq

/-- `threadsResponse?.threads || []` from NavAgents. -/
def threadsOf (threadsResponse : Option ThreadsResponse) : List Thread :=
  (threadsResponse.map ThreadsResponse.threads).getD []

/-- The render of the NavAgents list region, as a function of the sidebar
state string, the mobile flag, the thread query outputs and the local state.
`none` models the gated-off region (the guard
`state !== 'collapsed' || isMobile` being false). Mirrors nav-agents.tsx
lines 102-143: `isLoading = isThreadsLoading && threads.length === 0`, then
skeleton of 3 / populated rows / empty message. -/
def navAgentsRender (state : String) (isMobile : Bool) (isThreadsLoading : Bool)
    (threadsResponse : Option ThreadsResponse) (loadingThreadId : Option String)
    (pathname : Option String) : Option NavListView :=
  let threads := threadsOf threadsResponse
  let isLoading := isThreadsLoading && threads.length == 0
  if state != "collapsed" || isMobile then
    some
      (if isLoading then
        NavListView.skeleton 3
      else if threads.length > 0 then
        NavListView.rows (rowsOf threads loadingThreadId pathname)
      else
        NavListView.emptyMessage)
  else
    none

/-- The health query response shape `{ status: string }`. -/
structure HealthData where
  status : String
  deriving DecidableEq

/-- What DashboardLayoutContent returns. -/
inductive LayoutView where
  | nothing
  | maintenance
  | shell (showSidebar : Bool)
  deriving DecidableEq

/-- DashboardLayoutContent from layout-content.tsx:
`isApiHealthy = healthData?.status === 'ok' && !healthError`;
`if (isCheckingHealth) return null; if (!isApiHealthy) return <MaintenancePage/>;`
otherwise the AppProviders shell with showSidebar = true. -/
def dashboardLayoutContent (isCheckingHealth : Bool)
    (healthData : Option HealthData) (healthError : Bool) : LayoutView :=
  let isApiHealthy :=
    (healthData.map fun d => d.status == "ok").getD false && !healthError
  if isCheckingHealth then LayoutView.nothing
  else if !isApiHealthy then LayoutView.maintenance
  else LayoutView.shell true

/-- The sidebar axes owned by the useSidebar provider: the desktop
expanded/collapsed flag (setOpen) and the mobile overlay flag (setOpenMobile).
The source calls the first one `open`, a reserved word here. -/
structure SidebarUiState where
  openDesktop : Bool
  openMobile : Bool
  deriving DecidableEq

/-- The route-change effect of SidebarLeft (useEffect on
[pathname, searchParams, isMobile]): `if (isMobile) setOpenMobile(false)`. -/
def routeChangeEffect (isMobile : Bool) (s : SidebarUiState) : SidebarUiState :=
  if isMobile then { s with openMobile := false } else s

/-- The observable outputs of one run of handleKeyDown: whether
preventDefault was called, the argument of the setOpen call (if any), and the
`expanded` payloads of the dispatched sidebar-left-toggled events. -/
structure KeyDownResult where
  preventDefault : Bool
  setOpenCall : Option Bool
  dispatchedEvents : List Bool
  deriving DecidableEq

/-- JavaScript String.prototype.startsWith, on the character lists of the
strings. -/
def jsStartsWith (s pre : String) : Bool :=
  pre.data.isPrefixOf s.data

/-- handleKeyDown from sidebar-left.tsx: on (metaKey || ctrlKey) && key == 'b',
preventDefault, setOpen(!state.startsWith('expanded')), and dispatch a
sidebar-left-toggled CustomEvent with detail.expanded the same boolean. -/
def handleKeyDown (ev : KeyboardEvent) (state : String) : KeyDownResult :=
  if (ev.metaKey || ev.ctrlKey) && ev.key == "b" then
    { preventDefault := true,
      setOpenCall := some (!(jsStartsWith state "expanded")),
      dispatchedEvents := [!(jsStartsWith state "expanded")] }
  else
    { preventDefault := false, setOpenCall := none, dispatchedEvents := [] }

/-- One desktop toggle of the expanded flag: the new value passed to setOpen
is the negation of the current expanded state. -/
def toggleExpanded (expanded : Bool) : Bool := !expanded

/-- A row of the settings table. JSONB values are modelled as their JSON
text, with SQL NULL as `none`; timestamps as naturals. -/
structure SettingsRow where
  key : String
  value : Option String
  created_at : Nat
  updated_at : Nat
  deriving DecidableEq

/-- The BEFORE UPDATE trigger function from the migration:
`NEW.updated_at = NOW(); RETURN NEW`. -/
def set_updated_at_timestamp (now : Nat) (newRow : SettingsRow) : SettingsRow :=
  { newRow with updated_at := now }

/-- INSERT with the column defaults of the migration:
created_at and updated_at both default to NOW(). -/
def insertRowDefaults (k : String) (v : Option String) (now : Nat) : SettingsRow :=
  { key := k, value := v, created_at := now, updated_at := now }

/-- `UPDATE settings SET value = newValue [, updated_at = clientUpdatedAt]
WHERE key = k`, with the row-level BEFORE UPDATE trigger
handle_settings_updated_at applied to every affected row. -/
def updateSettings (table : List SettingsRow) (k : String) (newValue : Option String)
    (clientUpdatedAt : Option Nat) (now : Nat) : List SettingsRow :=
  table.map fun r =>
    if r.key == k then
      set_updated_at_timestamp now
        { r with value := newValue, updated_at := clientUpdatedAt.getD r.updated_at }
    else r

/-! ## Helper lemmas -/

theorem isPrefixOf_ex (n h : List Char) :
    n.isPrefixOf h = true ↔ ∃ b, h = n ++ b := by
  induction n generalizing h with
  | nil =>
    simp [List.isPrefixOf]
  | cons x xs ih =>
    cases h with
    | nil => simp [List.isPrefixOf]
    | cons y ys =>
      simp only [List.isPrefixOf, Bool.and_eq_true, beq_iff_eq, ih,
        List.cons_append, List.cons.injEq]
      constructor
      · rintro ⟨rfl, b, rfl⟩
        exact ⟨b, rfl, rfl⟩
      · rintro ⟨b, rfl, rfl⟩
        exact ⟨rfl, b, rfl⟩

theorem jsIncludes_ex (h n : List Char) :
    jsIncludes h n = true ↔ ∃ a b, h = a ++ n ++ b := by
  induction h with
  | nil =>
    simp only [jsIncludes, List.isEmpty_iff]
    constructor
    · rintro rfl
      exact ⟨[], [], rfl⟩
    · rintro ⟨a, b, hab⟩
      have := hab.symm
      simp only [List.append_assoc, List.append_eq_nil] at this
      exact this.2.1
  | cons c t ih =>
    simp only [jsIncludes, Bool.or_eq_true, isPrefixOf_ex, ih]
    constructor
    · rintro (⟨b, hb⟩ | ⟨a, b, hab⟩)
      · exact ⟨[], b, by simpa using hb⟩
      · exact ⟨c :: a, b, by simp [hab]⟩
    · rintro ⟨a, b, hab⟩
      cases a with
      | nil =>
        exact Or.inl ⟨b, by simpa using hab⟩
      | cons a0 as =>
        right
        simp only [List.cons_append, List.cons.injEq] at hab
        exact ⟨as, b, hab.2⟩

/-! ## Claim theorems -/

/-- C1 counterexample: a click with the ctrl platform modifier held (and meta
not held) still marks the clicked thread as the transient loading target,
changing the previously marked id (none) — contradicting the claim that a
modified click marks no transient state. -/
theorem C1_counterexample :
    platformModifierHeld { metaKey := false, ctrlKey := true } = true ∧
    (handleThreadClick { metaKey := false, ctrlKey := true } "t1" false
        { loadingThreadId := none, openMobile := true }).loadingThreadId ≠
      ({ loadingThreadId := none, openMobile := true } : NavAgentsState).loadingThreadId := by
  constructor
  · rfl
  · intro h
    simp [handleThreadClick] at h

/-- C1 (amended): handleThreadClick keys the transient loading mark on the
meta key alone: if metaKey is held the previously marked id is unchanged,
otherwise (even with ctrl held) the clicked id becomes the loading target. -/
theorem C1_click_marks_unless_meta (e : MouseEvent) (id : String) (m : Bool)
    (s : NavAgentsState) :
    (handleThreadClick e id m s).loadingThreadId =
      if e.metaKey then s.loadingThreadId else some id := by
  obtain ⟨mk, ck⟩ := e
  cases mk <;> cases m <;> simp [handleThreadClick]

/-- C3: a route change while mobile forces the mobile overlay closed, and a
route change never alters the desktop expanded/collapsed flag on any
viewport. -/
theorem C3_route_change_closes_mobile (m : Bool) (s : SidebarUiState) :
    (routeChangeEffect m s).openDesktop = s.openDesktop ∧
    (m = true → (routeChangeEffect m s).openMobile = false) := by
  cases m <;> simp [routeChangeEffect]

theorem C3_witness :
    (routeChangeEffect true { openDesktop := true, openMobile := true }).openDesktop = true ∧
    (routeChangeEffect true { openDesktop := true, openMobile := true }).openMobile = false :=
  ⟨(C3_route_change_closes_mobile true { openDesktop := true, openMobile := true }).1,
   (C3_route_change_closes_mobile true { openDesktop := true, openMobile := true }).2 rfl⟩

/-- C8: n toggle-expanded events take the expanded flag to its initial value
xor the parity of n, and two consecutive toggles return it to its start. -/
theorem C8_toggle_parity :
    (∀ (init : Bool) (n : Nat),
        toggleExpanded^[n] init = Bool.xor init (n % 2 == 1)) ∧
    (∀ b : Bool, toggleExpanded (toggleExpanded b) = b) := by
  constructor
  · intro init n
    induction n with
    | zero => simp
    | succ k ih =>
      rcases Nat.mod_two_eq_zero_or_one k with h | h
      · have h1 : (k + 1) % 2 = 1 := by omega
        cases init <;>
          simp [Function.iterate_succ_apply', ih, h, h1, toggleExpanded]
      · have h1 : (k + 1) % 2 = 0 := by omega
        cases init <;>
          simp [Function.iterate_succ_apply', ih, h, h1, toggleExpanded]
  · intro b
    cases b <;> simp [toggleExpanded]

/-- C9: at most one thread id is marked as the transient loading target at
any time, and a plain click marks the clicked id as the unique target,
replacing any previously marked id. -/
theorem C9_single_loading_target :
    (∀ (s : NavAgentsState) (i j : String),
        isMarkedLoading s i → isMarkedLoading s j → i = j) ∧
    (∀ (e : MouseEvent) (id : String) (m : Bool) (s : NavAgentsState),
        e.metaKey = false →
          isMarkedLoading (handleThreadClick e id m s) id ∧
          ∀ j, isMarkedLoading (handleThreadClick e id m s) j → j = id) := by
  constructor
  · intro s i j hi hj
    unfold isMarkedLoading at hi hj
    rw [hi] at hj
    exact Option.some.inj hj
  · intro e id m s hmeta
    obtain ⟨mk, ck⟩ := e
    subst hmeta
    cases m <;> constructor <;>
      simp [handleThreadClick, isMarkedLoading]

theorem C9_witness :
    ("a" : String) = "a" ∧
    isMarkedLoading
      (handleThreadClick { metaKey := false, ctrlKey := false } "a" false
        { loadingThreadId := some "b", openMobile := true }) "a" :=
  ⟨C9_single_loading_target.1 { loadingThreadId := some "a", openMobile := false } "a" "a" rfl rfl,
   (C9_single_loading_target.2 { metaKey := false, ctrlKey := false } "a" false
      { loadingThreadId := some "b", openMobile := true } rfl).1⟩

/-- C10: on a non-mobile viewport with the sidebar collapsed, the thread-list
region renders none of the three documented states, for every loading flag,
thread collection, transient id and path. -/
theorem C10_collapsed_renders_nothing (ld : Bool) (resp : Option ThreadsResponse)
    (lid : Option String) (p : Option String) :
    navAgentsRender "collapsed" false ld resp lid p = none := by
  simp [navAgentsRender]

/-- C2: while the health check is in flight the layout renders nothing;
once settled, the maintenance view is rendered exactly when the response is
not a `{status: "ok"}` payload with no transport error, and the full shell
with sidebar exactly when it is. -/
theorem C2_layout_health (c : Bool) (d : Option HealthData) (e : Bool) :
    (c = true → dashboardLayoutContent c d e = LayoutView.nothing) ∧
    (c = false →
      (dashboardLayoutContent c d e = LayoutView.maintenance ↔
        ¬ (d = some { status := "ok" } ∧ e = false))) ∧
    (c = false →
      (dashboardLayoutContent c d e = LayoutView.shell true ↔
        (d = some { status := "ok" } ∧ e = false))) := by
  cases c with
  | true =>
    exact ⟨fun _ => rfl, fun h => Bool.noConfusion h, fun h => Bool.noConfusion h⟩
  | false =>
    refine ⟨fun h => Bool.noConfusion h, fun _ => ?_, fun _ => ?_⟩
    · cases d with
      | none => simp [dashboardLayoutContent]
      | some hd =>
        obtain ⟨s⟩ := hd
        by_cases hs : s = "ok" <;> cases e <;>
          simp [dashboardLayoutContent, hs]
    · cases d with
      | none => simp [dashboardLayoutContent]
      | some hd =>
        obtain ⟨s⟩ := hd
        by_cases hs : s = "ok" <;> cases e <;>
          simp [dashboardLayoutContent, hs]

theorem C2_witness :
    dashboardLayoutContent false (some { status := "ok" }) false = LayoutView.shell true :=
  ((C2_layout_health false (some { status := "ok" }) false).2.2 rfl).mpr ⟨rfl, rfl⟩

/-- C4: the BEFORE UPDATE trigger forces updated_at to the update time on
every updated row, overriding any client-supplied updated_at; inserting a row
at t0 and updating its value at a later time t1 leaves key and created_at
unchanged, installs the new value, and leaves updated_at strictly greater
than created_at. -/
theorem C4_update_forces_updated_at (k : String) (v0 v1 : Option String)
    (cu : Option Nat) (t0 t1 : Nat) (h : t0 < t1) :
    (∀ (table : List SettingsRow) (r : SettingsRow),
        r ∈ updateSettings table k v1 cu t1 → r.key = k → r.updated_at = t1) ∧
    updateSettings [insertRowDefaults k v0 t0] k v1 cu t1 =
      [{ key := k, value := v1, created_at := t0, updated_at := t1 }] ∧
    t0 < t1 := by
  refine ⟨?_, ?_, h⟩
  · intro table r hr hk
    unfold updateSettings at hr
    obtain ⟨r0, _, h2⟩ := List.mem_map.mp hr
    by_cases hb : (r0.key == k) = true
    · rw [if_pos hb] at h2
      subst h2
      rfl
    · rw [if_neg hb] at h2
      subst h2
      exact absurd (beq_iff_eq.mpr hk) hb
  · simp [updateSettings, insertRowDefaults, set_updated_at_timestamp]

theorem C4_witness :
    updateSettings [insertRowDefaults "feature.x" (some "true") 0] "feature.x"
        (some "false") (some 0) 1 =
      [{ key := "feature.x", value := some "false", created_at := 0, updated_at := 1 }] ∧
    (0 : Nat) < 1 :=
  ⟨(C4_update_forces_updated_at "feature.x" (some "true") (some "false") (some 0) 0 1
      (by decide)).2.1,
   (C4_update_forces_updated_at "feature.x" (some "true") (some "false") (some 0) 0 1
      (by decide)).2.2⟩

/-- C5: with the list region not gated off, the renderer shows exactly one of
three states chosen from (loading, count): the 3-row skeleton exactly when
the loading flag is set and the thread collection is empty, the populated
rows exactly when the collection is non-empty, and the empty message exactly
when load has completed with zero threads; the rows are one per thread in
input order, each with url /agents/{thread_id}. -/
theorem C5_render_states (st : String) (m ld : Bool) (resp : Option ThreadsResponse)
    (lid : Option String) (p : Option String)
    (hgate : st ≠ "collapsed" ∨ m = true) :
    (navAgentsRender st m ld resp lid p = some (NavListView.skeleton 3) ↔
      ld = true ∧ threadsOf resp = []) ∧
    (navAgentsRender st m ld resp lid p =
        some (NavListView.rows (rowsOf (threadsOf resp) lid p)) ↔
      threadsOf resp ≠ []) ∧
    (navAgentsRender st m ld resp lid p = some NavListView.emptyMessage ↔
      ld = false ∧ threadsOf resp = []) ∧
    (rowsOf (threadsOf resp) lid p).map ThreadRow.thread_id =
      (threadsOf resp).map Thread.thread_id ∧
    (rowsOf (threadsOf resp) lid p).map ThreadRow.url =
      (threadsOf resp).map (fun t => "/agents/" ++ t.thread_id) := by
  have hg : (st != "collapsed" || m) = true := by
    rcases hgate with h | h
    · simp only [Bool.or_eq_true, bne_iff_ne]
      exact Or.inl h
    · simp [h]
  cases hthreads : threadsOf resp with
  | nil =>
    cases ld <;>
      simp [navAgentsRender, hg, hthreads, rowsOf]
  | cons x xs =>
    cases ld <;>
      simp [navAgentsRender, hg, hthreads, rowsOf, Function.comp]

theorem C5_witness :
    navAgentsRender "expanded" false false
        (some { threads := [{ thread_id := "abc", name := "n", updated_at := 0, iconName := none }] })
        none (some "/agents/abc") =
      some (NavListView.rows
        (rowsOf
          (threadsOf
            (some { threads := [{ thread_id := "abc", name := "n", updated_at := 0, iconName := none }] }))
          none (some "/agents/abc"))) :=
  ((C5_render_states "expanded" false false
      (some { threads := [{ thread_id := "abc", name := "n", updated_at := 0, iconName := none }] })
      none (some "/agents/abc") (Or.inl (by decide))).2.1).mpr (by decide)

/-- C6: a rendered thread row carries isActive = true exactly when the
current path contains the row's thread id as a contiguous substring (loose
containment, not path-segment equality). -/
theorem C6_active_iff_path_contains (threads : List Thread) (lid : Option String)
    (p : String) (r : ThreadRow) (hr : r ∈ rowsOf threads lid (some p)) :
    (r.isActive = true ↔
      ∃ a b : List Char, p.data = a ++ r.thread_id.data ++ b) := by
  unfold rowsOf at hr
  obtain ⟨t, _, rfl⟩ := List.mem_map.mp hr
  simpa [isActiveRow] using jsIncludes_ex p.data t.thread_id.data

theorem C6_witness :
    (({ thread_id := "abc", url := "/agents/abc", isActive := true,
        isThreadLoading := false } : ThreadRow).isActive = true ↔
      ∃ a b : List Char,
        ("/agents/abc" : String).data =
          a ++ ({ thread_id := "abc", url := "/agents/abc", isActive := true,
                  isThreadLoading := false } : ThreadRow).thread_id.data ++ b) :=
  C6_active_iff_path_contains
    [{ thread_id := "abc", name := "n", updated_at := 0, iconName := none }] none
    "/agents/abc"
    { thread_id := "abc", url := "/agents/abc", isActive := true, isThreadLoading := false }
    (by decide)

/-- C7: on a keydown with a platform modifier (meta or ctrl) and key b, the
handler prevents the browser default, calls setOpen with the flipped
expanded flag, and dispatches exactly one broadcast event whose payload is
that same new expanded boolean. -/
theorem C7_keydown_toggle (ev : KeyboardEvent) (st : String)
    (hmod : ev.metaKey = true ∨ ev.ctrlKey = true) (hkey : ev.key = "b")
    (hst : st = "expanded" ∨ st = "collapsed") :
    (handleKeyDown ev st).preventDefault = true ∧
    (handleKeyDown ev st).setOpenCall = some (!(st == "expanded")) ∧
    (handleKeyDown ev st).dispatchedEvents = [!(st == "expanded")] := by
  have hb : ((ev.metaKey || ev.ctrlKey) && ev.key == "b") = true := by
    rcases hmod with h | h <;> simp [h, hkey]
  rcases hst with h | h <;>
    (subst h; unfold handleKeyDown; rw [if_pos hb];
     exact ⟨rfl, by decide, by decide⟩)

theorem C7_witness :
    (handleKeyDown { key := "b", metaKey := true, ctrlKey := false }
        "expanded").preventDefault = true ∧
    (handleKeyDown { key := "b", metaKey := true, ctrlKey := false }
        "expanded").setOpenCall = some (!("expanded" == "expanded")) ∧
    (handleKeyDown { key := "b", metaKey := true, ctrlKey := false }
        "expanded").dispatchedEvents = [!("expanded" == "expanded")] :=
  C7_keydown_toggle { key := "b", metaKey := true, ctrlKey := false } "expanded"
    (Or.inl rfl) rfl (Or.inl rfl)

end SunaSpec
